import Mathlib

/-!
Shallow embedding of `train.py` from the facial-landmark-detector training
repository, together with proofs about its orchestration logic.

Conventions of the embedding:
- tensors are lists of rationals (`List ℚ`) or matrices (`List (List ℚ)`);
  floating-point scalars are modelled as rationals;
- a Python exception is modelled by `Except`/`Option` (`Except.error` /
  `none` means the call raises and the process aborts);
- the external framework collaborators (backbone network, auxiliary
  network, loss criterion, optimizer update) are abstract function
  parameters: the spec places their numeric content out of scope;
- in-place module state (parameters and train/eval mode) is passed
  explicitly; a PyTorch module is constructed in training mode.
-/

namespace PFLD

/-- Matrix-shaped tensor: a batch dimension of rows of rational scalars. -/
abbrev Tensor2 := List (List ℚ)

/-- One element yielded by a data loader: `(img, landmark_gt, attribute_gt,
euler_angle_gt)` as in the `for` loops of `train` and `validate`. -/
structure Batch where
  img : Tensor2
  landmark_gt : Tensor2
  attribute_gt : Tensor2
  euler_angle_gt : Tensor2
deriving DecidableEq

/-- The strings `str2bool` accepts as `True` (line 33 of `train.py`). -/
def trueStrings : List String := ["yes", "true", "t", "y", "1"]

/-- The strings `str2bool` accepts as `False` (line 35 of `train.py`). -/
def falseStrings : List String := ["no", "false", "f", "n", "0"]

/-- Embedding of `str2bool` (lines 32-38): lower-case the input, return a
boolean for the recognized strings and raise `ArgumentTypeError`
(modelled by `Except.error`) otherwise. -/
def str2bool (v : String) : Except String Bool :=
  if v.toLower ∈ trueStrings then Except.ok true
  else if v.toLower ∈ falseStrings then Except.ok false
  else Except.error "Boolean value expected"

/-- Whether a string starts with the path separator `'/'`. -/
def startsWithSlash (s : String) : Bool :=
  match s.data with
  | [] => false
  | c :: _ => c = '/'

/-- Whether a string ends with the path separator `'/'`. -/
def endsWithSlash (s : String) : Bool :=
  match s.data.getLast? with
  | some c => c = '/'
  | none => false

/-- Embedding of `os.path.join` (posix) for two components, as used on
line 175: an absolute second component replaces the first; otherwise the
parts are joined with a single separator. -/
def osPathJoin (a b : String) : String :=
  if startsWithSlash b then b
  else if a = "" then b
  else if endsWithSlash a then a ++ b
  else a ++ "/" ++ b

/-- The checkpoint filename built in `main` (lines 175-176):
`os.path.join(str(args.snapshot), "checkpoint_epoch_" + str(epoch) + '.pth.tar')`. -/
def checkpointFilename (snapshot : String) (epoch : ℤ) : String :=
  osPathJoin snapshot ("checkpoint_epoch_" ++ toString epoch ++ ".pth.tar")

/-- Embedding of Python `range(a, b)`: the integers `a, a+1, ...` strictly
below `b`, empty when `b ≤ a`. -/
def pythonRange (a b : ℤ) : List ℤ :=
  (List.range (b - a).toNat).map (fun (i : ℕ) => a + (i : ℤ))

/-- The sequence of epoch indices the main loop runs (line 172):
`range(args.start_epoch, args.end_epoch + 1)`. -/
def epochsRun (s t : ℤ) : List ℤ := pythonRange s (t + 1)

/-- Helper list of `n` consecutive integers starting at `s`, used to
reason about `pythonRange` by structural recursion. -/
def consecFrom (s : ℤ) : ℕ → List ℤ
  | 0 => []
  | n + 1 => s :: consecFrom (s + 1) n

theorem pythonRange_eq_consecFrom (a b : ℤ) :
    pythonRange a b = consecFrom a (b - a).toNat := by
  generalize h : (b - a).toNat = n
  induction n generalizing a b with
  | zero => simp [pythonRange, h, consecFrom]
  | succ n ih =>
    have hb : (b - (a + 1)).toNat = n := by omega
    rw [consecFrom, ← ih (a + 1) b hb]
    unfold pythonRange
    rw [h, hb, List.range_succ_eq_map]
    simp only [List.map_cons, List.map_map, Nat.cast_zero, add_zero]
    congr 1
    apply List.map_congr_left
    intro i _
    simp only [Function.comp_apply]
    push_cast
    ring

/-- Train/eval mode of a PyTorch module. A freshly constructed module is
in `training` mode; `.eval()` switches it to `eval`. -/
inductive Mode
  | training
  | eval
deriving DecidableEq

/-- Observable events of one run of `main`'s epoch loop (lines 172-188).
`trainPass` and `validatePass` record the mode both modules are in while
the pass runs; `checkpointWrite` records the filename written. -/
inductive Ev
  | trainPass (epoch : ℤ) (backboneMode auxMode : Mode)
  | checkpointWrite (epoch : ℤ) (filename : String)
  | validatePass (epoch : ℤ) (backboneMode auxMode : Mode)
  | schedulerStep (epoch : ℤ)
  | logScalars (epoch : ℤ)
deriving DecidableEq

/-- The epoch an event belongs to. -/
def Ev.epoch : Ev → ℤ
  | .trainPass e _ _ => e
  | .checkpointWrite e _ => e
  | .validatePass e _ _ => e
  | .schedulerStep e => e
  | .logScalars e => e

/-- One iteration of the epoch loop (lines 173-188), given the current
train/eval modes `m` of (backbone, auxiliary) when the iteration starts:
`train(...)` runs with the modes as they are (it never calls `.train()`),
then the checkpoint is written, then `validate(...)` puts both modules
into `eval` mode (lines 84-85) and runs, then the scheduler steps on the
validation loss, then the scalars are logged. The modes left behind for
the next iteration are `(eval, eval)`. -/
def epochBody (snapshot : String) (m : Mode × Mode) (e : ℤ) :
    List Ev × (Mode × Mode) :=
  ([Ev.trainPass e m.1 m.2,
    Ev.checkpointWrite e (checkpointFilename snapshot e),
    Ev.validatePass e Mode.eval Mode.eval,
    Ev.schedulerStep e,
    Ev.logScalars e],
   (Mode.eval, Mode.eval))

/-- Run the epoch loop over a list of epoch indices, threading the
modules' modes through the iterations. -/
def runEpochs (snapshot : String) : List ℤ → Mode × Mode → List Ev
  | [], _ => []
  | e :: rest, m =>
      (epochBody snapshot m e).1 ++ runEpochs snapshot rest (epochBody snapshot m e).2

/-- The event trace of `main` from `start_epoch = s` to `end_epoch = t`:
the loop `for epoch in range(args.start_epoch, args.end_epoch + 1)` run
with both modules freshly constructed, hence initially in training mode. -/
def mainTrace (s t : ℤ) (snapshot : String) : List Ev :=
  runEpochs snapshot (epochsRun s t) (Mode.training, Mode.training)

theorem runEpochs_consecFrom_filter_lower (snapshot : String) (e : ℤ) :
    ∀ (n : ℕ) (s : ℤ) (m : Mode × Mode), e < s →
      (runEpochs snapshot (consecFrom s n) m).filter (fun ev => ev.epoch = e) = [] := by
  intro n
  induction n with
  | zero => intro s m _; simp [consecFrom, runEpochs]
  | succ n ih =>
    intro s m hlt
    have hne : ¬ (s = e) := by omega
    simp only [consecFrom, runEpochs, epochBody, List.filter_append, List.filter_cons,
      Ev.epoch, hne, decide_eq_true_eq, if_false, List.nil_append]
    exact ih (s + 1) (Mode.eval, Mode.eval) (by omega)

/-- Within a run, the events of epoch `e` are exactly one epoch body, with
the modes at `e` being `training` when `e` is the first epoch and `eval`
afterwards. -/
theorem runEpochs_consecFrom_filter (snapshot : String) (e : ℤ) :
    ∀ (n : ℕ) (s : ℤ) (m : Mode × Mode), s ≤ e → e < s + n →
      (runEpochs snapshot (consecFrom s n) m).filter (fun ev => ev.epoch = e) =
        (epochBody snapshot (if e = s then m else (Mode.eval, Mode.eval)) e).1 := by
  intro n
  induction n with
  | zero => intro s m h1 h2; omega
  | succ n ih =>
    intro s m h1 h2
    simp only [consecFrom, runEpochs, List.filter_append]
    by_cases he : e = s
    · subst he
      rw [runEpochs_consecFrom_filter_lower snapshot e n (e + 1) _ (by omega)]
      simp [epochBody, Ev.epoch, List.filter_cons]
    · have h1' : s + 1 ≤ e := by omega
      rw [ih (s + 1) (epochBody snapshot m s).2 h1' (by omega)]
      have hne : e ≠ s + 1 → True := fun _ => trivial
      have : (epochBody snapshot m s).1.filter (fun ev => ev.epoch = e) = [] := by
        simp [epochBody, Ev.epoch, List.filter_cons, Ne.symm he]
      rw [this, List.nil_append]
      by_cases he1 : e = s + 1 <;> simp [he, he1, epochBody]

/-- The part of the torch global state the script touches: whether
gradient tracking is enabled. -/
structure TorchCtx where
  gradEnabled : Bool
deriving DecidableEq

/-- Embedding of the `with torch.no_grad():` context manager: the body
runs with gradient tracking disabled and the previous context is restored
afterwards. -/
def withNoGrad {α : Type} (ctx : TorchCtx) (f : TorchCtx → α) : α × TorchCtx :=
  (f { gradEnabled := false }, ctx)

/-- The in-place state of the two modules: their parameter collections
and their train/eval modes. -/
structure ModState (P A : Type) where
  backboneParams : P
  auxParams : A
  backboneMode : Mode
  auxMode : Mode
deriving DecidableEq

/-- Arithmetic mean of a list of scalars (`torch.mean` / `np.mean` on a
nonempty 1-d tensor; on the empty list the real library returns NaN,
which this rational model does not represent). -/
def listMean (xs : List ℚ) : ℚ := xs.sum / xs.length

/-- One row of `torch.sum((landmark_gt - landmark)**2, axis=1)` (line
108): elementwise difference, square, sum along the coordinate axis. -/
def rowSqError (gt pred : List ℚ) : ℚ :=
  (List.zipWith (fun g p => (g - p) ^ 2) gt pred).sum

/-- The per-batch validation loss of lines 107-108:
`torch.mean(torch.sum((landmark_gt - landmark)**2, axis=1))`. -/
def batchValLoss (gt pred : Tensor2) : ℚ :=
  listMean (List.zipWith rowSqError gt pred)

/-- The list `losses` built by `validate`'s loop (lines 89-109): one
entry per batch yielded by the dataloader, in order. `forwardLmk`
abstracts the backbone's forward pass `img ↦ landmark` at the given
parameters. -/
def valLosses {P : Type} (loader : List Batch) (forwardLmk : P → Tensor2 → Tensor2)
    (p : P) : List ℚ :=
  loader.map (fun b => batchValLoss b.landmark_gt (forwardLmk p b.img))

/-- What a call to `validate` produces: the returned scalar, the module
state left behind, the restored torch context, and the gradient-tracking
flag observed at each loop iteration. -/
structure ValidateResult (P A : Type) where
  loss : ℚ
  st : ModState P A
  ctx : TorchCtx
  gradFlags : List Bool
deriving DecidableEq

/-- Embedding of `validate` (lines 82-111): put both modules in `eval`
mode, run the loop once over the dataloader inside `torch.no_grad()`,
collect one per-batch loss per iteration, and return `np.mean(losses)`.
Parameters are read, never written. -/
def validate {P A : Type} (loader : List Batch) (forwardLmk : P → Tensor2 → Tensor2)
    (st : ModState P A) (ctx : TorchCtx) : ValidateResult P A :=
  let st1 : ModState P A := { st with backboneMode := Mode.eval, auxMode := Mode.eval }
  let body := withNoGrad ctx (fun c =>
    (valLosses loader forwardLmk st1.backboneParams, loader.map (fun _ => c.gradEnabled)))
  ⟨listMean body.1.1, st1, body.2, body.1.2⟩

/-- The validation error exactly as the spec words it: for each batch the
mean over the batch of the sum over coordinates of the squared landmark
error, batch-averaged across the whole validation set. -/
def specValError {P : Type} (loader : List Batch) (forwardLmk : P → Tensor2 → Tensor2)
    (p : P) : ℚ :=
  listMean (loader.map (fun b =>
    listMean (List.zipWith
      (fun gRow pRow => ((List.zipWith (fun g q => g - q) gRow pRow).map (fun d => d ^ 2)).sum)
      b.landmark_gt (forwardLmk p b.img))))

/-- Modelled from the spec: the running-average meter
(`utils.utils.AverageMeter` is imported on line 18 but `utils/utils.py`
is not among the sources). Per the spec it is \"an accumulator of scalar
loss values across steps within one epoch; reset implicitly at the start
of each call\", whose \"reported mean equals the arithmetic mean of all
values passed to it since last reset\". -/
structure AverageMeter where
  sum : ℚ
  count : ℕ
deriving DecidableEq

/-- A fresh meter, as constructed by `losses = AverageMeter()` (line 43). -/
def AverageMeter.new : AverageMeter := ⟨0, 0⟩

/-- Record one scalar value (line 78, `losses.update(loss.item())`). -/
def AverageMeter.update (m : AverageMeter) (v : ℚ) : AverageMeter :=
  ⟨m.sum + v, m.count + 1⟩

/-- The meter's reported mean. -/
def AverageMeter.avg (m : AverageMeter) : ℚ := m.sum / m.count

/-- The state threaded through `train`'s loop: the two parameter
collections (mutated by the optimizer), the running-average meter, the
number of optimizer steps taken, and the `(weighted_loss, loss)` pairs
computed so far, in order. -/
structure TrainState (P A : Type) where
  params : P × A
  losses : AverageMeter
  optSteps : ℕ
  lossLog : List (ℚ × ℚ)
deriving DecidableEq

/-- One iteration of `train`'s loop (lines 56-78): forward the batch
through the backbone (`features, landmarks`), then the auxiliary net
(`angle`), compute `(weighted_loss, loss)` with the criterion, do
`zero_grad` / `backward` / `step` (abstracted by `optStep`, one update
per batch), and feed the unweighted loss to the meter. -/
def trainStep {P A : Type} (forwardB : P → Tensor2 → Tensor2 × Tensor2)
    (forwardA : A → Tensor2 → Tensor2)
    (criterion : Tensor2 → Tensor2 → Tensor2 → Tensor2 → Tensor2 → ℕ → ℚ × ℚ)
    (optStep : P × A → Batch → P × A) (bs : ℕ)
    (st : TrainState P A) (b : Batch) : TrainState P A :=
  let fl := forwardB st.params.1 b.img
  let angle := forwardA st.params.2 fl.1
  let wl := criterion b.attribute_gt b.landmark_gt b.euler_angle_gt angle fl.2 bs
  { params := optStep st.params b
    losses := st.losses.update wl.2
    optSteps := st.optSteps + 1
    lossLog := st.lossLog ++ [wl] }

/-- Embedding of `train` (lines 41-79): fold the loop body over the
batches, starting from a fresh meter. The Python function returns the
`weighted_loss, loss` of the last iteration; on an empty loader those
locals are unbound and the call raises, which `trainReturn` models. -/
def train {P A : Type} (loader : List Batch) (p0 : P × A)
    (forwardB : P → Tensor2 → Tensor2 × Tensor2)
    (forwardA : A → Tensor2 → Tensor2)
    (criterion : Tensor2 → Tensor2 → Tensor2 → Tensor2 → Tensor2 → ℕ → ℚ × ℚ)
    (optStep : P × A → Batch → P × A) (bs : ℕ) : TrainState P A :=
  loader.foldl (trainStep forwardB forwardA criterion optStep bs)
    ⟨p0, AverageMeter.new, 0, []⟩

/-- The pair `weighted_loss, loss` returned by `train` (line 79): the
values bound at the last loop iteration; `none` models the `NameError`
raised when the loader is empty. -/
def trainReturn {P A : Type} (loader : List Batch) (p0 : P × A)
    (forwardB : P → Tensor2 → Tensor2 × Tensor2)
    (forwardA : A → Tensor2 → Tensor2)
    (criterion : Tensor2 → Tensor2 → Tensor2 → Tensor2 → Tensor2 → ℕ → ℚ × ℚ)
    (optStep : P × A → Batch → P × A) (bs : ℕ) : Option (ℚ × ℚ) :=
  (train loader p0 forwardB forwardA criterion optStep bs).lossLog.getLast?

/-- The spec's description of the training pass: for each batch, in
order, the weighted multi-term loss and the unweighted reference loss
produced by the criterion, with the parameters evolving by one
gradient-descent update per batch. -/
def specLossSeq {P A : Type} (forwardB : P → Tensor2 → Tensor2 × Tensor2)
    (forwardA : A → Tensor2 → Tensor2)
    (criterion : Tensor2 → Tensor2 → Tensor2 → Tensor2 → Tensor2 → ℕ → ℚ × ℚ)
    (optStep : P × A → Batch → P × A) (bs : ℕ) :
    P × A → List Batch → List (ℚ × ℚ)
  | _, [] => []
  | pa, b :: rest =>
      let fl := forwardB pa.1 b.img
      let angle := forwardA pa.2 fl.1
      criterion b.attribute_gt b.landmark_gt b.euler_angle_gt angle fl.2 bs ::
        specLossSeq forwardB forwardA criterion optStep bs (optStep pa b) rest

/-- The record written by `save_checkpoint` and read back on resume
(lines 133-135 and 177-181): the epoch number and the two parameter
collections, keyed `'epoch'`, `'plfd_backbone'`, `'auxiliarynet'`. -/
structure Checkpoint (P A : Type) where
  epoch : ℤ
  plfd_backbone : P
  auxiliarynet : A
deriving DecidableEq

/-- Embedding of lines 129-135 of `main`: construct both models fresh
and, when `args.resume` is a nonempty string, overwrite both parameter
collections with the ones stored in the checkpoint loaded by
`torch.load` (abstracted by `torchLoad`). -/
def setupModels {P A : Type} (freshB : P) (freshA : A) (resume : String)
    (torchLoad : String → Checkpoint P A) : P × A :=
  if resume ≠ "" then
    ((torchLoad resume).plfd_backbone, (torchLoad resume).auxiliarynet)
  else (freshB, freshA)

/-- Python `int(str)` on a list of characters: an optional sign followed
by at least one decimal digit; anything else raises `ValueError`,
modelled by `none`. -/
def pyIntCore (cs : List Char) : Option ℤ :=
  let sd : ℤ × List Char :=
    match cs with
    | c :: rest => if c = '-' then (-1, rest) else if c = '+' then (1, rest) else (1, cs)
    | [] => (1, cs)
  if sd.2 ≠ [] ∧ sd.2.all Char.isDigit then
    some (sd.1 * (sd.2.foldl (fun acc c => 10 * acc + ((c.toNat : ℤ) - 48)) 0))
  else none

/-- Whitespace recognized by Python's `str.strip()`. -/
def isPySpace (c : Char) : Bool :=
  c = ' ' ∨ c = '\t' ∨ c = '\n' ∨ c = '\r' ∨ c = '\x0b' ∨ c = '\x0c'

/-- Strip leading and trailing whitespace from a character list. -/
def stripChars (cs : List Char) : List Char :=
  ((cs.dropWhile isPySpace).reverse.dropWhile isPySpace).reverse

/-- Python `int(s)` for a string `s`: surrounding whitespace is stripped,
then the digits are parsed. -/
def pyInt (s : String) : Option ℤ := pyIntCore (stripChars s.data)

/-- Embedding of argparse's handling of `--base_lr`, declared
`default=0.0001, type=int` (line 201): when the flag is absent the
default is used as-is (the float `0.0001`, a rational here); when a
string is supplied argparse applies `int` to it and a `ValueError`
becomes a parse error that terminates the process before training. -/
def parseBaseLr (arg : Option String) : Except String ℚ :=
  match arg with
  | none => Except.ok (1 / 10000)
  | some s =>
      match pyInt s with
      | some n => Except.ok (n : ℚ)
      | none => Except.error "argument --base_lr: invalid int value"

/-- C3: `str2bool` returns `True` iff the lower-cased input is one of
`"yes","true","t","y","1"`, returns `False` iff it is one of
`"no","false","f","n","0"`, and raises an argument-type error (modelled
by `Except.error`) for every other string. -/
theorem str2bool_contract (v : String) :
    (str2bool v = Except.ok true ↔ v.toLower ∈ trueStrings) ∧
    (str2bool v = Except.ok false ↔ v.toLower ∈ falseStrings) ∧
    ((∃ e, str2bool v = Except.error e) ↔
      v.toLower ∉ trueStrings ∧ v.toLower ∉ falseStrings) := by
  by_cases h1 : v.toLower ∈ trueStrings
  · have h2 : v.toLower ∉ falseStrings := by
      simp only [trueStrings, List.mem_cons, List.mem_singleton, List.not_mem_nil,
        or_false] at h1
      rcases h1 with h | h | h | h | h <;> simp [falseStrings, h]
    simp [str2bool, h1, h2]
  · by_cases h2 : v.toLower ∈ falseStrings
    · simp [str2bool, h1, h2]
    · simp [str2bool, h1, h2]

/-- Each loop iteration of the main loop emits exactly five events. -/
theorem runEpochs_length (snapshot : String) :
    ∀ (l : List ℤ) (m : Mode × Mode),
      (runEpochs snapshot l m).length = 5 * l.length := by
  intro l
  induction l with
  | nil => intro m; simp [runEpochs]
  | cons e rest ih =>
    intro m
    simp only [runEpochs, epochBody, List.length_append, List.length_cons, ih,
      List.length_nil]
    ring

/-- C6: the epoch loop `range(start_epoch, end_epoch + 1)` executes
`end_epoch - start_epoch + 1` iterations when the range is nonempty and
zero otherwise, each iteration contributes exactly five events to the
(finite) trace, and the run then terminates. -/
theorem epoch_loop_count (s t : ℤ) (snapshot : String) :
    ((epochsRun s t).length : ℤ) = (if s ≤ t then t - s + 1 else 0) ∧
    (mainTrace s t snapshot).length = 5 * (epochsRun s t).length := by
  constructor
  · simp only [epochsRun, pythonRange, List.length_map, List.length_range]
    split <;> omega
  · exact runEpochs_length snapshot (epochsRun s t) (Mode.training, Mode.training)

/-- C7: `validate` leaves both parameter collections exactly as it found
them, and a second consecutive call on the state and context it left
behind returns the same loss value. -/
theorem validate_frame (P A : Type) (loader : List Batch)
    (forwardLmk : P → Tensor2 → Tensor2) (st : ModState P A) (ctx : TorchCtx) :
    (validate loader forwardLmk st ctx).st.backboneParams = st.backboneParams ∧
    (validate loader forwardLmk st ctx).st.auxParams = st.auxParams ∧
    (validate loader forwardLmk st ctx).ctx = ctx ∧
    (validate loader forwardLmk
        (validate loader forwardLmk st ctx).st
        (validate loader forwardLmk st ctx).ctx).loss =
      (validate loader forwardLmk st ctx).loss :=
  ⟨rfl, rfl, rfl, rfl⟩

/-- C2: `validate` iterates the validation set exactly once (one loop
iteration, hence one observed gradient flag, per batch), every iteration
runs with gradient tracking disabled, and the returned scalar equals the
spec's formula: the batch-average over the whole validation set of the
per-batch mean over the batch of the sum over coordinates of the squared
landmark error. -/
theorem validate_contract (P A : Type) (loader : List Batch)
    (forwardLmk : P → Tensor2 → Tensor2) (st : ModState P A) (ctx : TorchCtx)
    (h : loader ≠ []) :
    (validate loader forwardLmk st ctx).loss
        = specValError loader forwardLmk st.backboneParams ∧
    (validate loader forwardLmk st ctx).gradFlags.length = loader.length ∧
    (∀ f ∈ (validate loader forwardLmk st ctx).gradFlags, f = false) := by
  refine ⟨?_, ?_, ?_⟩
  · simp only [validate, withNoGrad, specValError, valLosses, batchValLoss,
      List.map_zipWith]
    rfl
  · simp [validate, withNoGrad]
  · intro f hf
    simp only [validate, withNoGrad, List.mem_map] at hf
    obtain ⟨b, _, hb⟩ := hf
    exact hb.symm

/-- Witness for `validate_contract` at a concrete one-batch validation
set with the identity forward pass. -/
theorem validate_contract_witness :
    ([⟨[[1]], [[3, 5]], [[0]], [[0]]⟩] : List Batch) ≠ [] ∧
    ((validate [⟨[[1]], [[3, 5]], [[0]], [[0]]⟩]
        (fun (_ : Unit) _ => [[1, 2]]) ⟨(), (), Mode.training, Mode.training⟩ ⟨true⟩).loss
      = specValError [⟨[[1]], [[3, 5]], [[0]], [[0]]⟩] (fun _ _ => [[1, 2]]) () ∧
    (validate [⟨[[1]], [[3, 5]], [[0]], [[0]]⟩]
        (fun (_ : Unit) _ => [[1, 2]]) ⟨(), (), Mode.training, Mode.training⟩ ⟨true⟩).gradFlags.length
      = ([⟨[[1]], [[3, 5]], [[0]], [[0]]⟩] : List Batch).length ∧
    (∀ f ∈ (validate [⟨[[1]], [[3, 5]], [[0]], [[0]]⟩]
        (fun (_ : Unit) _ => [[1, 2]]) ⟨(), (), Mode.training, Mode.training⟩ ⟨true⟩).gradFlags,
      f = false)) :=
  ⟨by decide,
   validate_contract Unit Unit [⟨[[1]], [[3, 5]], [[0]], [[0]]⟩]
     (fun _ _ => [[1, 2]]) ⟨(), (), Mode.training, Mode.training⟩ ⟨true⟩ (by decide)⟩

theorem checkpointWrite_mem_filename (snapshot : String) (e : ℤ) (fn : String) :
    ∀ (l : List ℤ) (m : Mode × Mode),
      Ev.checkpointWrite e fn ∈ runEpochs snapshot l m →
        fn = checkpointFilename snapshot e := by
  intro l
  induction l with
  | nil => intro m h; simp [runEpochs] at h
  | cons x rest ih =>
    intro m h
    simp only [runEpochs, epochBody, List.mem_append, List.mem_cons,
      List.not_mem_nil, or_false] at h
    rcases h with (h | h | h | h | h) | h
    · cases h
    · rw [Ev.checkpointWrite.injEq] at h
      rw [h.2, h.1]
    · cases h
    · cases h
    · cases h
    · exact ih _ h

/-- C8: every checkpoint written during a run goes to the filename
`os.path.join(snapshot, "checkpoint_epoch_" + str(epoch) + ".pth.tar")`,
a deterministic function of exactly the snapshot directory and the epoch
index. -/
theorem checkpoint_filename_deterministic (s t e : ℤ) (snapshot fn : String)
    (h : Ev.checkpointWrite e fn ∈ mainTrace s t snapshot) :
    fn = osPathJoin snapshot ("checkpoint_epoch_" ++ toString e ++ ".pth.tar") :=
  checkpointWrite_mem_filename snapshot e fn (epochsRun s t)
    (Mode.training, Mode.training) h

/-- Witness for `checkpoint_filename_deterministic`: the checkpoint of
epoch 1 in a one-epoch run with snapshot directory `"d"`. -/
theorem checkpoint_filename_deterministic_witness :
    "d/checkpoint_epoch_1.pth.tar" =
      osPathJoin "d" ("checkpoint_epoch_" ++ toString (1 : ℤ) ++ ".pth.tar") :=
  checkpoint_filename_deterministic 1 1 1 "d" "d/checkpoint_epoch_1.pth.tar" (by decide)

theorem pyIntCore_dot (cs : List Char) (h : '.' ∈ cs) : pyIntCore cs = none := by
  cases cs with
  | nil => cases h
  | cons c tail =>
    have htail : '.' ∈ tail → tail.all Char.isDigit = false := by
      intro hr
      rw [List.all_eq_false]
      exact ⟨'.', hr, by decide⟩
    by_cases h1 : c = '-'
    · subst h1
      rw [List.mem_cons] at h
      rcases h with h | h
      · exact absurd h (by decide)
      · simp [pyIntCore, htail h]
    · by_cases h2 : c = '+'
      · subst h2
        rw [List.mem_cons] at h
        rcases h with h | h
        · exact absurd h (by decide)
        · simp [pyIntCore, h1, htail h]
      · have hall : (c :: tail).all Char.isDigit = false := by
          rw [List.all_eq_false]
          rw [List.mem_cons] at h
          rcases h with h | h
          · exact ⟨'.', by rw [h]; exact List.mem_cons_self _ _, by decide⟩
          · exact ⟨'.', List.mem_cons_of_mem _ h, by decide⟩
        simp [pyIntCore, h1, h2, hall]

/-- C10: `--base_lr` is declared with `type=int`, so a decimal string
such as `"0.0001"` makes argument parsing fail before training starts;
the float default `0.0001` is used exactly when the flag is absent, and a
supplied value is parsed as an integer. -/
theorem base_lr_is_int_typed (s : String) (h : '.' ∈ stripChars s.data) :
    (∃ e, parseBaseLr (some s) = Except.error e) ∧
    parseBaseLr none = Except.ok (1 / 10000 : ℚ) ∧
    (∀ (v : String) (n : ℤ), pyInt v = some n →
      parseBaseLr (some v) = Except.ok (n : ℚ)) := by
  refine ⟨⟨"argument --base_lr: invalid int value", ?_⟩, rfl, ?_⟩
  · simp [parseBaseLr, pyInt, pyIntCore_dot (stripChars s.data) h]
  · intro v n hv
    simp [parseBaseLr, hv]

/-- Witness for `base_lr_is_int_typed` at the concrete string
`"0.0001"`. -/
theorem base_lr_is_int_typed_witness :
    ('.' ∈ stripChars "0.0001".data) ∧
    ((∃ e, parseBaseLr (some "0.0001") = Except.error e) ∧
     parseBaseLr none = Except.ok (1 / 10000 : ℚ) ∧
     (∀ (v : String) (n : ℤ), pyInt v = some n →
       parseBaseLr (some v) = Except.ok (n : ℚ))) :=
  ⟨by decide, base_lr_is_int_typed "0.0001" (by decide)⟩

/-- C9: resuming restores exactly the two parameter collections: the
resulting models are unchanged when the loaded checkpoint's `epoch`
field changes (it is never read), with a nonempty resume path the models
come from the checkpoint's `plfd_backbone` and `auxiliarynet` entries,
and the first epoch the loop executes is `start_epoch`, regardless of
any checkpoint contents. -/
theorem resume_ignores_epoch (P A : Type) (freshB : P) (freshA : A)
    (resume : String) (load1 load2 : String → Checkpoint P A) (s t : ℤ)
    (hb : ∀ p, (load1 p).plfd_backbone = (load2 p).plfd_backbone)
    (ha : ∀ p, (load1 p).auxiliarynet = (load2 p).auxiliarynet) :
    setupModels freshB freshA resume load1 = setupModels freshB freshA resume load2 ∧
    (resume ≠ "" → setupModels freshB freshA resume load1 =
      ((load1 resume).plfd_backbone, (load1 resume).auxiliarynet)) ∧
    (epochsRun s t).head? = (if s ≤ t then some s else none) := by
  refine ⟨?_, ?_, ?_⟩
  · unfold setupModels
    split
    · rw [hb, ha]
    · rfl
  · intro hr
    unfold setupModels
    rw [if_pos hr]
  · rw [epochsRun, pythonRange_eq_consecFrom]
    by_cases hle : s ≤ t
    · have hn : (t + 1 - s).toNat = (t - s).toNat + 1 := by omega
      rw [hn]
      simp [consecFrom, hle]
    · have hn : (t + 1 - s).toNat = 0 := by omega
      rw [hn]
      simp [consecFrom, hle]

/-- Witness for `resume_ignores_epoch`: two loaders whose checkpoints
differ only in the stored epoch number give the same models, and a run
from epoch 3 to 5 starts at epoch 3. -/
theorem resume_ignores_epoch_witness :
    (setupModels (0 : ℤ) (0 : ℤ) "ckpt" (fun _ => ⟨7, 1, 2⟩) =
      setupModels (0 : ℤ) (0 : ℤ) "ckpt" (fun _ => ⟨99, 1, 2⟩)) ∧
    (("ckpt" : String) ≠ "" → setupModels (0 : ℤ) (0 : ℤ) "ckpt" (fun _ => ⟨7, 1, 2⟩) =
      (((fun (_ : String) => (⟨7, 1, 2⟩ : Checkpoint ℤ ℤ)) "ckpt").plfd_backbone,
       ((fun (_ : String) => (⟨7, 1, 2⟩ : Checkpoint ℤ ℤ)) "ckpt").auxiliarynet)) ∧
    (epochsRun 3 5).head? = (if (3 : ℤ) ≤ 5 then some 3 else none) :=
  resume_ignores_epoch ℤ ℤ 0 0 "ckpt" (fun _ => ⟨7, 1, 2⟩) (fun _ => ⟨99, 1, 2⟩) 3 5
    (fun _ => rfl) (fun _ => rfl)

/-- Whether an event is a checkpoint write belonging to epoch `e`. -/
def isCkptOf (e : ℤ) : Ev → Bool
  | .checkpointWrite e2 _ => e2 = e
  | _ => false

theorem epochBody_ckpt_filter (snapshot : String) (m : Mode × Mode) (x e : ℤ) :
    ((epochBody snapshot m x).1.filter (isCkptOf e)).length =
      if x = e then 1 else 0 := by
  by_cases hxe : x = e <;> simp [epochBody, isCkptOf, List.filter_cons, hxe]

theorem runEpochs_ckpt_count (snapshot : String) (e : ℤ) :
    ∀ (n : ℕ) (s : ℤ) (m : Mode × Mode),
      ((runEpochs snapshot (consecFrom s n) m).filter (isCkptOf e)).length =
        if s ≤ e ∧ e < s + n then 1 else 0 := by
  intro n
  induction n with
  | zero =>
    intro s m
    rw [if_neg (by omega)]
    simp [consecFrom, runEpochs]
  | succ n ih =>
    intro s m
    simp only [consecFrom, runEpochs, List.filter_append, List.length_append,
      ih (s + 1) (epochBody snapshot m s).2, epochBody_ckpt_filter]
    split_ifs <;> omega

/-- C4: in every epoch of the run the events occur in exactly this
order: training pass, checkpoint write, validation pass, scheduler step,
scalar logging; each in-range epoch writes exactly one checkpoint, and
no epoch ever writes more than one. -/
theorem epoch_iteration_order (s t : ℤ) (snapshot : String) :
    (∀ e : ℤ, ((mainTrace s t snapshot).filter (isCkptOf e)).length ≤ 1) ∧
    (∀ e : ℤ, s ≤ e → e ≤ t →
      ((mainTrace s t snapshot).filter (isCkptOf e)).length = 1) ∧
    (∀ e : ℤ, s ≤ e → e ≤ t →
      ∃ bm am, (mainTrace s t snapshot).filter (fun ev => ev.epoch = e) =
        [Ev.trainPass e bm am,
         Ev.checkpointWrite e (checkpointFilename snapshot e),
         Ev.validatePass e Mode.eval Mode.eval,
         Ev.schedulerStep e,
         Ev.logScalars e]) := by
  have hmt : mainTrace s t snapshot =
      runEpochs snapshot (consecFrom s (t + 1 - s).toNat) (Mode.training, Mode.training) := by
    rw [mainTrace, epochsRun, pythonRange_eq_consecFrom]
  refine ⟨?_, ?_, ?_⟩
  · intro e
    rw [hmt, runEpochs_ckpt_count]
    split <;> omega
  · intro e h1 h2
    rw [hmt, runEpochs_ckpt_count, if_pos (by omega)]
  · intro e h1 h2
    rw [hmt, runEpochs_consecFrom_filter snapshot e _ s _ h1 (by omega)]
    exact ⟨_, _, rfl⟩

/-- Witness for `epoch_iteration_order`: a run from epoch 1 to 2 with
snapshot directory `"d"`, observed at epoch 2. -/
theorem epoch_iteration_order_witness :
    ((mainTrace 1 2 "d").filter (isCkptOf 2)).length = 1 ∧
    (∃ bm am, (mainTrace 1 2 "d").filter (fun ev => ev.epoch = 2) =
      [Ev.trainPass 2 bm am,
       Ev.checkpointWrite 2 (checkpointFilename "d" 2),
       Ev.validatePass 2 Mode.eval Mode.eval,
       Ev.schedulerStep 2,
       Ev.logScalars 2]) :=
  ⟨(epoch_iteration_order 1 2 "d").2.1 2 (by decide) (by decide),
   (epoch_iteration_order 1 2 "d").2.2 2 (by decide) (by decide)⟩

/-- C1 fails on the code: `validate` puts both modules into `eval` mode
(lines 84-85) and `train` never puts them back into training mode, so in
a run from epoch 1 to 2 the epoch-1 training pass runs in training mode
(the modules' initial state) but the epoch-2 training pass runs with
both modules still in `eval` mode, while every validation pass does run
in `eval` mode. -/
theorem train_pass_mode_bug :
    Ev.trainPass 1 Mode.training Mode.training ∈ mainTrace 1 2 "d" ∧
    Ev.trainPass 2 Mode.eval Mode.eval ∈ mainTrace 1 2 "d" ∧
    (¬ Ev.trainPass 2 Mode.training Mode.training ∈ mainTrace 1 2 "d") ∧
    Ev.validatePass 1 Mode.eval Mode.eval ∈ mainTrace 1 2 "d" ∧
    Ev.validatePass 2 Mode.eval Mode.eval ∈ mainTrace 1 2 "d" := by
  decide

theorem specLossSeq_length {P A : Type} (forwardB : P → Tensor2 → Tensor2 × Tensor2)
    (forwardA : A → Tensor2 → Tensor2)
    (criterion : Tensor2 → Tensor2 → Tensor2 → Tensor2 → Tensor2 → ℕ → ℚ × ℚ)
    (optStep : P × A → Batch → P × A) (bs : ℕ) :
    ∀ (loader : List Batch) (pa : P × A),
      (specLossSeq forwardB forwardA criterion optStep bs pa loader).length
        = loader.length := by
  intro loader
  induction loader with
  | nil => intro pa; simp [specLossSeq]
  | cons b rest ih =>
    intro pa
    simp [specLossSeq, ih]

theorem train_foldl_props {P A : Type} (forwardB : P → Tensor2 → Tensor2 × Tensor2)
    (forwardA : A → Tensor2 → Tensor2)
    (criterion : Tensor2 → Tensor2 → Tensor2 → Tensor2 → Tensor2 → ℕ → ℚ × ℚ)
    (optStep : P × A → Batch → P × A) (bs : ℕ) :
    ∀ (loader : List Batch) (st : TrainState P A),
      (List.foldl (trainStep forwardB forwardA criterion optStep bs) st loader).lossLog
          = st.lossLog ++ specLossSeq forwardB forwardA criterion optStep bs st.params loader ∧
      (List.foldl (trainStep forwardB forwardA criterion optStep bs) st loader).optSteps
          = st.optSteps + loader.length ∧
      (List.foldl (trainStep forwardB forwardA criterion optStep bs) st loader).losses.sum
          = st.losses.sum +
            ((specLossSeq forwardB forwardA criterion optStep bs st.params loader).map
              Prod.snd).sum ∧
      (List.foldl (trainStep forwardB forwardA criterion optStep bs) st loader).losses.count
          = st.losses.count + loader.length := by
  intro loader
  induction loader with
  | nil => intro st; simp [specLossSeq]
  | cons b rest ih =>
    intro st
    obtain ⟨h1, h2, h3, h4⟩ := ih (trainStep forwardB forwardA criterion optStep bs st b)
    simp only [List.foldl_cons, specLossSeq]
    refine ⟨?_, ?_, ?_, ?_⟩
    · rw [h1]
      simp [trainStep, List.append_assoc]
    · rw [h2]
      simp only [trainStep, List.length_cons]
      omega
    · rw [h3]
      simp only [trainStep, AverageMeter.update, List.map_cons, List.sum_cons]
      ring
    · rw [h4]
      simp only [trainStep, AverageMeter.update, List.length_cons]
      omega

/-- C5: over one epoch, `train` computes for each batch, in order, the
`(weighted_loss, loss)` pair produced by the criterion at the current
parameters, performs exactly one optimizer update per batch, keeps a
running average whose reported mean is the arithmetic mean of the
per-step unweighted losses, and returns the weighted and unweighted loss
of the last batch (raising on an empty loader). -/
theorem train_contract (P A : Type) (loader : List Batch) (p0 : P × A)
    (forwardB : P → Tensor2 → Tensor2 × Tensor2)
    (forwardA : A → Tensor2 → Tensor2)
    (criterion : Tensor2 → Tensor2 → Tensor2 → Tensor2 → Tensor2 → ℕ → ℚ × ℚ)
    (optStep : P × A → Batch → P × A) (bs : ℕ) (h : loader ≠ []) :
    (train loader p0 forwardB forwardA criterion optStep bs).lossLog
        = specLossSeq forwardB forwardA criterion optStep bs p0 loader ∧
    (train loader p0 forwardB forwardA criterion optStep bs).optSteps = loader.length ∧
    (train loader p0 forwardB forwardA criterion optStep bs).losses.avg
        = listMean (((train loader p0 forwardB forwardA criterion optStep bs).lossLog).map
            Prod.snd) ∧
    trainReturn loader p0 forwardB forwardA criterion optStep bs
        = (specLossSeq forwardB forwardA criterion optStep bs p0 loader).getLast? ∧
    trainReturn loader p0 forwardB forwardA criterion optStep bs ≠ none := by
  obtain ⟨h1, h2, h3, h4⟩ := train_foldl_props forwardB forwardA criterion optStep bs loader
    ⟨p0, AverageMeter.new, 0, []⟩
  simp only [AverageMeter.new, List.nil_append, Nat.zero_add, zero_add] at h1 h2 h3 h4
  have hlen := specLossSeq_length forwardB forwardA criterion optStep bs loader p0
  have hlog : (train loader p0 forwardB forwardA criterion optStep bs).lossLog
      = specLossSeq forwardB forwardA criterion optStep bs p0 loader := h1
  have hspec_ne : specLossSeq forwardB forwardA criterion optStep bs p0 loader ≠ [] := by
    intro hnil
    apply h
    rw [hnil] at hlen
    exact List.eq_nil_of_length_eq_zero hlen.symm
  refine ⟨hlog, h2, ?_, ?_, ?_⟩
  · simp only [train, AverageMeter.new, AverageMeter.avg, listMean]
    rw [h3, h4, h1, List.length_map, hlen]
  · simp only [trainReturn]
    rw [hlog]
  · simp only [trainReturn]
    rw [hlog]
    intro hnone
    exact hspec_ne (List.getLast?_eq_none_iff.mp hnone)

/-- Witness for `train_contract`: a single-batch loader with constant
collaborator functions. -/
theorem train_contract_witness :
    ([⟨[[1]], [[2]], [[0]], [[1]]⟩] : List Batch) ≠ [] ∧
    ((train [⟨[[1]], [[2]], [[0]], [[1]]⟩] ((0 : ℚ), (0 : ℚ)) (fun _ img => (img, img))
        (fun _ f => f) (fun _ _ _ _ _ _ => (3, 5)) (fun pa _ => (pa.1 + 1, pa.2)) 2).lossLog
      = specLossSeq (fun _ img => (img, img)) (fun _ f => f) (fun _ _ _ _ _ _ => (3, 5))
          (fun pa _ => (pa.1 + 1, pa.2)) 2 ((0 : ℚ), (0 : ℚ)) [⟨[[1]], [[2]], [[0]], [[1]]⟩] ∧
    (train [⟨[[1]], [[2]], [[0]], [[1]]⟩] ((0 : ℚ), (0 : ℚ)) (fun _ img => (img, img))
        (fun _ f => f) (fun _ _ _ _ _ _ => (3, 5)) (fun pa _ => (pa.1 + 1, pa.2)) 2).optSteps
      = ([⟨[[1]], [[2]], [[0]], [[1]]⟩] : List Batch).length ∧
    (train [⟨[[1]], [[2]], [[0]], [[1]]⟩] ((0 : ℚ), (0 : ℚ)) (fun _ img => (img, img))
        (fun _ f => f) (fun _ _ _ _ _ _ => (3, 5)) (fun pa _ => (pa.1 + 1, pa.2)) 2).losses.avg
      = listMean (((train [⟨[[1]], [[2]], [[0]], [[1]]⟩] ((0 : ℚ), (0 : ℚ))
          (fun _ img => (img, img)) (fun _ f => f) (fun _ _ _ _ _ _ => (3, 5))
          (fun pa _ => (pa.1 + 1, pa.2)) 2).lossLog).map Prod.snd) ∧
    trainReturn [⟨[[1]], [[2]], [[0]], [[1]]⟩] ((0 : ℚ), (0 : ℚ)) (fun _ img => (img, img))
        (fun _ f => f) (fun _ _ _ _ _ _ => (3, 5)) (fun pa _ => (pa.1 + 1, pa.2)) 2
      = (specLossSeq (fun _ img => (img, img)) (fun _ f => f) (fun _ _ _ _ _ _ => (3, 5))
          (fun pa _ => (pa.1 + 1, pa.2)) 2 ((0 : ℚ), (0 : ℚ))
          [⟨[[1]], [[2]], [[0]], [[1]]⟩]).getLast? ∧
    trainReturn [⟨[[1]], [[2]], [[0]], [[1]]⟩] ((0 : ℚ), (0 : ℚ)) (fun _ img => (img, img))
        (fun _ f => f) (fun _ _ _ _ _ _ => (3, 5)) (fun pa _ => (pa.1 + 1, pa.2)) 2 ≠ none) :=
  ⟨by decide,
   train_contract ℚ ℚ [⟨[[1]], [[2]], [[0]], [[1]]⟩] ((0 : ℚ), (0 : ℚ))
     (fun _ img => (img, img)) (fun _ f => f) (fun _ _ _ _ _ _ => (3, 5))
     (fun pa _ => (pa.1 + 1, pa.2)) 2 (by decide)⟩

end PFLD
